import Mathlib

/-! Embedded assets demo (`main.go`): a shallow embedding.

The program renders two pages from an embedded, read-only file set through Go's
template library and then reads one embedded file directly (content, timestamp, MD5).

Modelling choices:

* a Go `string` and a `[]byte` are both a list of bytes (`Bytes`); a string literal of the
  source is written `str "..."` (its UTF-8 bytes);
* a Go function is a function `World → Res α`: it either returns a value and a new world or
  halts the process (`log.Fatal`, a nil dereference) in some world;
* the world holds what was written to standard output, what `log.Fatal` logged, the open
  file handles, and a record of the calls made to the template library;
* the standard library is modelled as far as the program uses it: `embed` (open, read,
  stat), `io.ReadAll`, `fmt`, `log.Fatal`, `time.Time.String` in UTC and `md5.Sum`;
* the template library (`html/template`) is a parameter: `TemplateLib`;
* `static.Assets` (package `static`, an embedded file set) is a parameter of type `FS`.

The file has the definitions first, then lemmas about them, then one theorem per claim.
-/

namespace EmbeddedAssets

/-! ## Bytes and strings -/

/-- A Go `string` or `[]byte`: a sequence of bytes. -/
abbrev Bytes := List UInt8

/-- UTF-8 encoding of one character. -/
def utf8Char (c : Char) : Bytes :=
  let n := c.toNat
  if n < 0x80 then [UInt8.ofNat n]
  else if n < 0x800 then [UInt8.ofNat (0xC0 + n / 0x40), UInt8.ofNat (0x80 + n % 0x40)]
  else if n < 0x10000 then
    [UInt8.ofNat (0xE0 + n / 0x1000), UInt8.ofNat (0x80 + n / 0x40 % 0x40),
     UInt8.ofNat (0x80 + n % 0x40)]
  else
    [UInt8.ofNat (0xF0 + n / 0x40000), UInt8.ofNat (0x80 + n / 0x1000 % 0x40),
     UInt8.ofNat (0x80 + n / 0x40 % 0x40), UInt8.ofNat (0x80 + n % 0x40)]

/-- UTF-8 bytes of a list of characters. -/
def strChars : List Char → Bytes
  | [] => []
  | c :: cs => utf8Char c ++ strChars cs

/-- The Go string written as the literal `s` in the source. -/
def str (s : String) : Bytes := strChars s.data

/-! ## Errors, files, the world -/

/-- Go `error` values that occur in this program. -/
inductive GoError where
  /-- The `*fs.PathError` with `Err: fs.ErrNotExist`. -/
  | notExist (op : String) (path : Bytes)
  /-- The `*fs.PathError` with the error `is a directory`. -/
  | isDirectory (op : String) (path : Bytes)
  /-- The sentinel `io.EOF`. -/
  | eof
  /-- An error returned by the template library, with its message. -/
  | template (msg : Bytes)
deriving DecidableEq, Repr

deriving instance DecidableEq for Except

/-- One embedded file: its path and its content. -/
structure EmbedFile where
  name : Bytes
  data : Bytes
deriving DecidableEq, Repr

/-- An embedded read-only file set (`embed.FS`), given by the regular files the compiler
emitted; names are the valid slash-separated paths the compiler writes. The directories of
the set are the root `.` and the ancestors of its files (see `FS.isDir`). -/
abbrev FS := List EmbedFile

/-- The state behind an open file handle (`embed.openFile`): the file and the read offset. -/
structure OpenFile where
  name : Bytes
  data : Bytes
  offset : Nat
deriving DecidableEq, Repr

/-- What a non-nil `fs.File` of an embedded set points at: an open regular file
(`embed.openFile`) or an open directory (`embed.openDir`, given by its path). -/
inductive Handle where
  | file (o : OpenFile)
  | dir (name : Bytes)
deriving DecidableEq, Repr

/-- An `fs.File` value: `none` is the nil interface, `some p` points at handle `p`. -/
abbrev File := Option Nat

/-- The `any` values this program passes as template data. -/
inductive GoAny where
  | nil
  | text (s : Bytes)
deriving DecidableEq, Repr

/-- A call into the template library: parsing patterns against a file set, or executing a
parsed set on some data. -/
inductive Call where
  | parseFS (fsys : FS) (patterns : List Bytes)
  | execute (data : GoAny)
deriving DecidableEq, Repr

/-- What the process can observe and change. -/
structure World where
  /-- Bytes written to `os.Stdout` so far. -/
  stdout : Bytes
  /-- Errors logged by `log.Fatal` (the log line without its date). -/
  stderr : List GoError
  /-- The open file handles; a handle is an index into this list. -/
  heap : List Handle
  /-- The calls made to the template library, oldest first. -/
  calls : List Call
deriving DecidableEq, Repr

/-- The world at process start. -/
def World.init : World := ⟨[], [], [], []⟩

/-- How a process stops before `main` returns. -/
inductive Halt where
  /-- The call `os.Exit(code)`. -/
  | exit (code : Nat)
  /-- The runtime panic on a nil dereference. -/
  | nilDeref
  /-- A loop of the model ran out of steps. -/
  | diverge
deriving DecidableEq, Repr

/-- Outcome of running a Go function: it returned `a`, or the process halted. -/
inductive Res (α : Type) where
  | ok (a : α) (w : World)
  | halt (h : Halt) (w : World)
deriving DecidableEq, Repr

/-- The world in which a run ended. -/
def Res.world {α : Type} : Res α → World
  | .ok _ w => w
  | .halt _ w => w

/-- A Go function with result type `α`. -/
def Go (α : Type) : Type := World → Res α

/-- Return without touching the world. -/
def Go.ret {α : Type} (a : α) : Go α := fun w => Res.ok a w

/-- Sequencing: a halt in the first part skips the rest. -/
def Go.andThen {α β : Type} (m : Go α) (f : α → Go β) : Go β := fun w =>
  match m w with
  | Res.ok a w1 => f a w1
  | Res.halt h w1 => Res.halt h w1

instance : Monad Go where
  pure := Go.ret
  bind := Go.andThen

/-! ## The standard library, as far as the program uses it -/

/-- The method `embed.FS.lookup` on regular files: the file called `name`, if any. (Go first
rejects a `name` that is not a valid path; an embedded file never has such a name, so the
result is the same.) -/
def FS.lookup (fsys : FS) (name : Bytes) : Option EmbedFile :=
  fsys.find? (fun f => f.name == name)

/-- Whether `name` is a directory of the set: the root `.`, or a path that some embedded
file lies under (the compiler emits a directory entry for every ancestor of a file, and
none for an empty directory; a name that is not a valid path lies above no embedded
file). -/
def FS.isDir (fsys : FS) (name : Bytes) : Bool :=
  name == str "." || fsys.any (fun f => decide ((name ++ str "/") <+: f.name))

/-- The method `embed.FS.Open`: for a regular file a fresh file handle at offset 0, for a
directory a fresh directory handle, and for a name with no entry the not-exist path error
and a nil handle. -/
def FS.Open (fsys : FS) (name : Bytes) : Go (File × Option GoError) := fun w =>
  match fsys.lookup name with
  | some f =>
    Res.ok (some w.heap.length, none)
      { w with heap := w.heap ++ [Handle.file ⟨f.name, f.data, 0⟩] }
  | none =>
    if fsys.isDir name then
      Res.ok (some w.heap.length, none) { w with heap := w.heap ++ [Handle.dir name] }
    else Res.ok (none, some (GoError.notExist "open" name)) w

/-- Operand of a formatting call. -/
inductive Arg where
  /-- A Go string. -/
  | s (v : Bytes)
  /-- A byte array such as `[16]byte`. -/
  | arr (v : Bytes)
deriving DecidableEq, Repr

/-- One hexadecimal digit, lower case. -/
def hexDigit (n : Nat) : UInt8 :=
  if n < 10 then UInt8.ofNat (48 + n) else UInt8.ofNat (87 + n)

/-- Lower-case hexadecimal of a byte sequence, two digits per byte (`%x`). -/
def hexBytes : Bytes → Bytes
  | [] => []
  | b :: bs => hexDigit (b.toNat / 16) :: hexDigit (b.toNat % 16) :: hexBytes bs

/-- Decimal digits of a number. -/
def decBytes (n : Nat) : Bytes := str (toString n)

/-- The operand under `%v`: a string as it is, a byte array as `[1 2 3]`. -/
def fmtV : Arg → Bytes
  | Arg.s v => v
  | Arg.arr v => str "[" ++ (List.intersperse (str " ") (v.map fun b => decBytes b.toNat)).flatten
      ++ str "]"

/-- The operand under `%x`. -/
def fmtX : Arg → Bytes
  | Arg.s v => hexBytes v
  | Arg.arr v => hexBytes v

/-- The function `fmt.Sprintf` for the verbs `%v`, `%x` and `%%` (byte 37 is `%`, 118 is
`v`, 120 is `x`). A verb without operand prints Go's `%!v(MISSING)` marker; other verbs and
surplus operands are outside the model (the text is copied, the operands are dropped). -/
def sprintf : Bytes → List Arg → Bytes
  | [], _ => []
  | 37 :: 118 :: rest, a :: args => fmtV a ++ sprintf rest args
  | 37 :: 118 :: rest, [] => str "%!v(MISSING)" ++ sprintf rest []
  | 37 :: 120 :: rest, a :: args => fmtX a ++ sprintf rest args
  | 37 :: 120 :: rest, [] => str "%!x(MISSING)" ++ sprintf rest []
  | 37 :: 37 :: rest, args => 37 :: sprintf rest args
  | c :: rest, args => c :: sprintf rest args

/-- The function `fmt.Print` on one string: the bytes go to standard output. -/
def fmtPrint (s : Bytes) : Go Unit := fun w =>
  Res.ok () { w with stdout := w.stdout ++ s }

/-- The function `fmt.Println` on one string: the bytes and a newline. -/
def fmtPrintln (s : Bytes) : Go Unit := fmtPrint (s ++ str "\n")

/-- The function `fmt.Printf`. -/
def fmtPrintf (format : Bytes) (args : List Arg) : Go Unit := fmtPrint (sprintf format args)

/-- The function `log.Fatal`: log the error, then `os.Exit(1)`. -/
def logFatal (err : GoError) : Go Unit := fun w =>
  Res.halt (Halt.exit 1) { w with stderr := w.stderr ++ [err] }

/-- The method `Read` with a buffer of `n` free bytes. On an open embedded file: end of
file once the offset has reached the end, else the next at most `n` bytes. On an open
directory: the is-a-directory path error (the entry of a directory is named with a trailing
slash). -/
def File.Read (f : File) (n : Nat) : Go (Bytes × Option GoError) := fun w =>
  match f with
  | none => Res.halt Halt.nilDeref w
  | some p =>
    match w.heap[p]? with
    | none => Res.halt Halt.nilDeref w
    | some (Handle.dir name) =>
      Res.ok ([], some (GoError.isDirectory "read" (name ++ str "/"))) w
    | some (Handle.file o) =>
      if o.data.length ≤ o.offset then Res.ok ([], some GoError.eof) w
      else
        let chunk := (o.data.drop o.offset).take n
        Res.ok (chunk, none)
          { w with heap :=
              w.heap.set p (Handle.file { o with offset := o.offset + chunk.length }) }

/-- The loop of `io.ReadAll`: read into the free part of the buffer until `Read` reports an
error; end of file is not an error of `ReadAll`. Every `Read` is offered 512 free bytes (Go
starts with 512 and grows the buffer when it is full, so a `Read` always has room). -/
def readAllLoop (r : File) : Nat → Bytes → Go (Bytes × Option GoError)
  | 0, _ => fun w => Res.halt Halt.diverge w
  | fuel + 1, b => do
    let (chunk, err) ← r.Read 512
    let b := b ++ chunk
    match err with
    | some e => pure (b, if e = GoError.eof then none else some e)
    | none => readAllLoop r fuel b

/-- Bytes left to read behind a handle. -/
def remaining (w : World) (r : File) : Nat :=
  match r with
  | none => 0
  | some p =>
    match w.heap[p]? with
    | none => 0
    | some (Handle.dir _) => 0
    | some (Handle.file o) => o.data.length - o.offset

/-- The function `io.ReadAll`; the loop gets one step per byte left and one for end of file. -/
def ioReadAll (r : File) : Go (Bytes × Option GoError) := fun w =>
  readAllLoop r (remaining w r + 1) [] w

/-- A point in time, in UTC: seconds since January 1 of year 1, and nanoseconds. -/
structure Time where
  sec : Nat
  nsec : Nat
deriving DecidableEq, Repr

/-- The zero value `time.Time{}`. -/
def Time.zero : Time := ⟨0, 0⟩

/-- What `Stat` returns for an embedded file (`fs.FileInfo`). -/
structure FileInfo where
  name : Bytes
  size : Nat
deriving DecidableEq, Repr

/-- The method `ModTime` of an embedded file: always the zero time. -/
def FileInfo.ModTime (_fi : FileInfo) : Time := Time.zero

/-- Last element of a slash-separated path. -/
def baseName : Bytes → Bytes
  | [] => []
  | c :: cs => if 47 ∈ cs then baseName cs else if c = 47 then cs else c :: cs

/-- The method `Stat` of an open embedded file or directory: never an error; a directory
has size 0. -/
def File.Stat (f : File) : Go (Option FileInfo × Option GoError) := fun w =>
  match f with
  | none => Res.halt Halt.nilDeref w
  | some p =>
    match w.heap[p]? with
    | none => Res.halt Halt.nilDeref w
    | some (Handle.dir name) => Res.ok (some ⟨baseName name, 0⟩, none) w
    | some (Handle.file o) => Res.ok (some ⟨baseName o.name, o.data.length⟩, none) w

/-- Calling `fi.ModTime()` on a possibly nil `fs.FileInfo`. -/
def modTimeOf (fi : Option FileInfo) : Go Time := fun w =>
  match fi with
  | none => Res.halt Halt.nilDeref w
  | some i => Res.ok i.ModTime w

/-- Decimal digits of `n`, padded with zeros on the left to `width`. -/
def pad (width n : Nat) : Bytes :=
  let d := decBytes n
  List.replicate (width - d.length) 48 ++ d

/-- Leap years of the Gregorian calendar. -/
def isLeap (year : Nat) : Bool :=
  year % 4 == 0 && (year % 100 != 0 || year % 400 == 0)

/-- Days before the start of each month in a common year. -/
def daysBefore : List Nat := [0, 31, 59, 90, 120, 151, 181, 212, 243, 273, 304, 334, 365]

/-- Year, month and day of the day `d` days after January 1 of year 1 (`absDate`). -/
def civil (d : Nat) : Nat × Nat × Nat :=
  let n400 := d / 146097
  let d := d - 146097 * n400
  let n100 := d / 36524
  let n100 := n100 - n100 / 4
  let d := d - 36524 * n100
  let n4 := d / 1461
  let d := d - 1461 * n4
  let n := d / 365
  let n := n - n / 4
  let d := d - 365 * n
  let year := 1 + 400 * n400 + 100 * n100 + 4 * n4 + n
  if isLeap year && d == 31 + 29 - 1 then (year, 2, 29)
  else
    let day := if isLeap year && d > 31 + 29 - 1 then d - 1 else d
    let month := day / 31
    let stop := daysBefore.getD (month + 1) 0
    if day ≥ stop then (year, month + 2, day - stop + 1)
    else (year, month + 1, day - daysBefore.getD month 0 + 1)

/-- Drop trailing zero digits. -/
def trimZeros (b : Bytes) : Bytes := (b.reverse.dropWhile (fun c => c == 48)).reverse

/-- The method `Time.String` for a time in UTC:
`2006-01-02 15:04:05.999999999 -0700 MST`. -/
def Time.String (t : Time) : Bytes :=
  let (y, m, d) := civil (t.sec / 86400)
  let s := t.sec % 86400
  pad 4 y ++ str "-" ++ pad 2 m ++ str "-" ++ pad 2 d ++ str " "
    ++ pad 2 (s / 3600) ++ str ":" ++ pad 2 (s % 3600 / 60) ++ str ":" ++ pad 2 (s % 60)
    ++ (if t.nsec = 0 then [] else str "." ++ trimZeros (pad 9 t.nsec))
    ++ str " +0000 UTC"

/-! ### MD5 (RFC 1321), on 32-bit words held in `Nat` -/

/-- Per-round left-rotation amounts. -/
def md5Shift : List Nat :=
  [7, 12, 17, 22, 7, 12, 17, 22, 7, 12, 17, 22, 7, 12, 17, 22,
   5, 9, 14, 20, 5, 9, 14, 20, 5, 9, 14, 20, 5, 9, 14, 20,
   4, 11, 16, 23, 4, 11, 16, 23, 4, 11, 16, 23, 4, 11, 16, 23,
   6, 10, 15, 21, 6, 10, 15, 21, 6, 10, 15, 21, 6, 10, 15, 21]

/-- The sine table. -/
def md5Sine : List Nat :=
  [0xd76aa478, 0xe8c7b756, 0x242070db, 0xc1bdceee,
   0xf57c0faf, 0x4787c62a, 0xa8304613, 0xfd469501,
   0x698098d8, 0x8b44f7af, 0xffff5bb1, 0x895cd7be,
   0x6b901122, 0xfd987193, 0xa679438e, 0x49b40821,
   0xf61e2562, 0xc040b340, 0x265e5a51, 0xe9b6c7aa,
   0xd62f105d, 0x02441453, 0xd8a1e681, 0xe7d3fbc8,
   0x21e1cde6, 0xc33707d6, 0xf4d50d87, 0x455a14ed,
   0xa9e3e905, 0xfcefa3f8, 0x676f02d9, 0x8d2a4c8a,
   0xfffa3942, 0x8771f681, 0x6d9d6122, 0xfde5380c,
   0xa4beea44, 0x4bdecfa9, 0xf6bb4b60, 0xbebfbc70,
   0x289b7ec6, 0xeaa127fa, 0xd4ef3085, 0x04881d05,
   0xd9d4d039, 0xe6db99e5, 0x1fa27cf8, 0xc4ac5665,
   0xf4292244, 0x432aff97, 0xab9423a7, 0xfc93a039,
   0x655b59c3, 0x8f0ccc92, 0xffeff47d, 0x85845dd1,
   0x6fa87e4f, 0xfe2ce6e0, 0xa3014314, 0x4e0811a1,
   0xf7537e82, 0xbd3af235, 0x2ad7d2bb, 0xeb86d391]

/-- Rotate a 32-bit word left by `c` bits. -/
def rotl32 (x c : Nat) : Nat := (x <<< c) % 2 ^ 32 ||| x >>> (32 - c)

/-- Bitwise complement of a 32-bit word. -/
def not32 (x : Nat) : Nat := x ^^^ 0xffffffff

/-- Little-endian 32-bit words of a byte sequence. -/
def wordsOf : List Nat → List Nat
  | b0 :: b1 :: b2 :: b3 :: rest => (b0 + 256 * b1 + 65536 * b2 + 16777216 * b3) :: wordsOf rest
  | _ => []

/-- Little-endian bytes of a number, `k` of them. -/
def leBytes : Nat → Nat → List Nat
  | 0, _ => []
  | k + 1, n => n % 256 :: leBytes k (n / 256)

/-- The four chaining words. -/
structure Md5State where
  a : Nat
  b : Nat
  c : Nat
  d : Nat
deriving DecidableEq, Repr

/-- One of the 64 operations on a block `m` of sixteen words. -/
def md5Step (m : List Nat) (st : Md5State) (i : Nat) : Md5State :=
  let f :=
    if i < 16 then st.b &&& st.c ||| not32 st.b &&& st.d
    else if i < 32 then st.d &&& st.b ||| not32 st.d &&& st.c
    else if i < 48 then st.b ^^^ st.c ^^^ st.d
    else st.c ^^^ (st.b ||| not32 st.d)
  let g :=
    if i < 16 then i
    else if i < 32 then (5 * i + 1) % 16
    else if i < 48 then (3 * i + 5) % 16
    else 7 * i % 16
  let x := (f + st.a + md5Sine.getD i 0 + m.getD g 0) % 2 ^ 32
  ⟨st.d, (st.b + rotl32 x (md5Shift.getD i 0)) % 2 ^ 32, st.b, st.c⟩

/-- Process one 64-byte block. -/
def md5Block (st : Md5State) (block : List Nat) : Md5State :=
  let r := (List.range 64).foldl (md5Step (wordsOf block)) st
  ⟨(st.a + r.a) % 2 ^ 32, (st.b + r.b) % 2 ^ 32, (st.c + r.c) % 2 ^ 32, (st.d + r.d) % 2 ^ 32⟩

/-- Process `n` blocks. -/
def md5Blocks : Nat → Md5State → List Nat → Md5State
  | 0, st, _ => st
  | n + 1, st, bytes => md5Blocks n (md5Block st (bytes.take 64)) (bytes.drop 64)

/-- The message, the bit 1, zeros up to 56 modulo 64, and the bit length in eight bytes. -/
def md5Pad (msg : List Nat) : List Nat :=
  msg ++ [0x80] ++ List.replicate ((119 - msg.length % 64) % 64) 0
    ++ leBytes 8 (msg.length * 8 % 2 ^ 64)

/-- The function `md5.Sum`: the 16-byte digest. -/
def md5Sum (data : Bytes) : Bytes :=
  let padded := md5Pad (data.map UInt8.toNat)
  let st := md5Blocks (padded.length / 64) ⟨0x67452301, 0xefcdab89, 0x98badcfe, 0x10325476⟩ padded
  (leBytes 4 st.a ++ leBytes 4 st.b ++ leBytes 4 st.c ++ leBytes 4 st.d).map UInt8.ofNat

/-- The template library `html/template`, as far as the program uses it: parsing the files
that a list of patterns names in a file set, and executing the parsed set on some data. An
execution yields the bytes it wrote to its writer and possibly an error. Both are functions
of their arguments: the library keeps no state between calls, and a writer that fails is
part of the instance. -/
structure TemplateLib (T : Type) where
  parseFS : FS → List Bytes → Except GoError T
  execute : T → GoAny → Bytes × Option GoError

/-- The call `template.ParseFS(fsys, patterns...)`. -/
def templateParseFS {T : Type} (lib : TemplateLib T) (fsys : FS) (patterns : List Bytes) :
    Go (Except GoError T) := fun w =>
  Res.ok (lib.parseFS fsys patterns) { w with calls := w.calls ++ [Call.parseFS fsys patterns] }

/-- The call `t.Execute(os.Stdout, data)`. -/
def templateExecute {T : Type} (lib : TemplateLib T) (t : T) (data : GoAny) :
    Go (Option GoError) := fun w =>
  Res.ok (lib.execute t data).2
    { w with stdout := w.stdout ++ (lib.execute t data).1,
             calls := w.calls ++ [Call.execute data] }

/-! ## The program -/

/-- Source: `renderFiles` takes the name of a template and renders it to the screen. -/
def renderFiles {T : Type} (lib : TemplateLib T) (assets : FS) (tmpl : Bytes) : Go Unit := do
  let r ← templateParseFS lib assets
    [str "base.tmpl", sprintf (str "pages/%v.tmpl") [Arg.s tmpl]]
  match r with
  | Except.error err => logFatal err
  | Except.ok t =>
    let e ← templateExecute lib t GoAny.nil
    match e with
    | some err => logFatal err
    | none => pure ()

/-- Source: `renderEmbeddedAssets` takes the name of an embedded template and renders it to
the screen. -/
def renderEmbeddedAssets {T : Type} (lib : TemplateLib T) (assets : FS) (tmpl : Bytes) :
    Go Unit := do
  let r ← templateParseFS lib assets
    [str "base.tmpl", sprintf (str "pages/%v.tmpl") [Arg.s tmpl]]
  match r with
  | Except.error err => logFatal err
  | Except.ok t =>
    let e ← templateExecute lib t GoAny.nil
    match e with
    | some err => logFatal err
    | none => pure ()

/-- Source: `fileContents` returns an embedded template and an error if one occurs. -/
def fileContents (assets : FS) (tmpl : Bytes) : Go (File × Option GoError) :=
  assets.Open (sprintf (str "pages/%v.tmpl") [Arg.s tmpl])

/-- Source: lines 28 to 34 of `main`, the direct access to the embedded file. -/
def mainAccess (assets : FS) : Go Unit := do
  let (f, _) ← fileContents assets (str "about")
  let (b, _) ← ioReadAll f
  fmtPrintln b
  let (fi, _) ← f.Stat
  let t ← modTimeOf fi
  fmtPrintln t.String
  fmtPrintf (str "%x") [Arg.arr (md5Sum b)]

/-- Source: lines 16 to 26 of `main`, the four renders and their separators. -/
def mainRender {T : Type} (lib : TemplateLib T) (assets : FS) : Go Unit := do
  renderFiles lib assets (str "home")
  fmtPrint (str "\n\n")
  renderFiles lib assets (str "about")
  fmtPrint (str "\n\n")
  renderEmbeddedAssets lib assets (str "home")
  fmtPrint (str "\n\n")
  renderEmbeddedAssets lib assets (str "about")
  fmtPrint (str "\n\n")

/-- Source: `main`. -/
def main {T : Type} (lib : TemplateLib T) (assets : FS) : Go Unit := do
  mainRender lib assets
  mainAccess assets

/-- The steps of lines 29, 30 and 34 of `main` for any page name: open the asset, read it to
the end and format its MD5 digest with `%x`. Returns the bytes read, the digest and the
hexadecimal text. -/
def openReadDigest (assets : FS) (tmpl : Bytes) : Go (Bytes × Bytes × Bytes) := do
  let (f, _) ← fileContents assets tmpl
  let (b, _) ← ioReadAll f
  pure (b, md5Sum b, sprintf (str "%x") [Arg.arr (md5Sum b)])

/-! ## Concrete asset sets and library instances -/

/-- The literal with which the about page starts. -/
def aboutTitle : Bytes := str "\x7b\x7bdefine \"title\"\x7d\x7dAbout\x7b\x7bend\x7d\x7d"

/-- Modelled from the spec: the embedded asset layout of package `static`, which is not among
the source files. The spec names three files, `base.tmpl`, `pages/home.tmpl` and
`pages/about.tmpl`, and gives the literal with which the about page starts; what the spec
leaves open (the other two contents and the rest of the about page) is a parameter. -/
def staticAssets (base home aboutRest : Bytes) : FS :=
  [⟨str "base.tmpl", base⟩,
   ⟨str "pages/about.tmpl", aboutTitle ++ aboutRest⟩,
   ⟨str "pages/home.tmpl", home⟩]

/-- The parse step of `plainLib`: every pattern must name a file of the set. -/
def plainParse (fsys : FS) : List Bytes → Except GoError (List Bytes)
  | [] => Except.ok []
  | p :: ps =>
    match fsys.lookup p with
    | none =>
      Except.error
        (GoError.template (str "template: pattern matches no files: \x60" ++ p ++ str "\x60"))
    | some f =>
      match plainParse fsys ps with
      | Except.error e => Except.error e
      | Except.ok texts => Except.ok (f.data :: texts)

/-- A template library instance for files that hold no template actions: every pattern
must name a file of the set, and execution writes the text of the first file. -/
def plainLib : TemplateLib (List Bytes) where
  parseFS := plainParse
  execute := fun t _ => (t.headD [], none)

/-- A template library instance whose writer is closed: parsing as in `plainLib`, execution
writes nothing and returns the write error. -/
def closedSinkLib : TemplateLib (List Bytes) where
  parseFS := plainParse
  execute := fun _ _ => ([], some (GoError.template (str "write /dev/stdout: file already closed")))

/-- A small asset set without template actions. -/
def demoAssets : FS :=
  [⟨str "base.tmpl", str "<p>hi</p>"⟩,
   ⟨str "pages/about.tmpl", str "about"⟩,
   ⟨str "pages/home.tmpl", str "home"⟩]

/-- An asset set in which `pages/about.tmpl` is a directory, not a file. -/
def dirAssets : FS :=
  [⟨str "base.tmpl", str "<p>hi</p>"⟩,
   ⟨str "pages/about.tmpl/inner.txt", str "x"⟩,
   ⟨str "pages/home.tmpl", str "home"⟩]

/-- An asset set that lacks the about page. -/
def noAboutAssets : FS :=
  [⟨str "base.tmpl", str "<p>hi</p>"⟩,
   ⟨str "pages/home.tmpl", str "home"⟩]

/-! ## Lemmas -/

theorem bind_run {α β : Type} (m : Go α) (f : α → Go β) (w : World) :
    (m >>= f) w = match m w with
      | Res.ok a w1 => f a w1
      | Res.halt h w1 => Res.halt h w1 := rfl

theorem pure_run {α : Type} (a : α) (w : World) : (pure a : Go α) w = Res.ok a w := rfl

theorem sprintf_page (p : Bytes) :
    sprintf (str "pages/%v.tmpl") [Arg.s p] = str "pages/" ++ p ++ str ".tmpl" := rfl

theorem renderFiles_eq_embedded {T : Type} (lib : TemplateLib T) (assets : FS) (p : Bytes) :
    renderFiles lib assets p = renderEmbeddedAssets lib assets p := rfl

theorem render_parse_error {T : Type} (lib : TemplateLib T) (assets : FS) (p : Bytes)
    (w : World) (e : GoError)
    (h : lib.parseFS assets [str "base.tmpl", str "pages/" ++ p ++ str ".tmpl"] = Except.error e) :
    renderEmbeddedAssets lib assets p w =
      Res.halt (Halt.exit 1)
        { w with stderr := w.stderr ++ [e],
                 calls := w.calls ++
                   [Call.parseFS assets [str "base.tmpl", str "pages/" ++ p ++ str ".tmpl"]] } := by
  simp only [renderEmbeddedAssets, bind_run, templateParseFS, sprintf_page, h, logFatal]

theorem render_exec_error {T : Type} (lib : TemplateLib T) (assets : FS) (p : Bytes)
    (w : World) (t : T) (out : Bytes) (e : GoError)
    (h : lib.parseFS assets [str "base.tmpl", str "pages/" ++ p ++ str ".tmpl"] = Except.ok t)
    (hx : lib.execute t GoAny.nil = (out, some e)) :
    renderEmbeddedAssets lib assets p w =
      Res.halt (Halt.exit 1)
        { w with stdout := w.stdout ++ out,
                 stderr := w.stderr ++ [e],
                 calls := w.calls ++
                   [Call.parseFS assets [str "base.tmpl", str "pages/" ++ p ++ str ".tmpl"],
                    Call.execute GoAny.nil] } := by
  simp only [renderEmbeddedAssets, bind_run, templateParseFS, sprintf_page, h, templateExecute,
    hx, logFatal]
  simp

theorem render_ok {T : Type} (lib : TemplateLib T) (assets : FS) (p : Bytes)
    (w : World) (t : T) (out : Bytes)
    (h : lib.parseFS assets [str "base.tmpl", str "pages/" ++ p ++ str ".tmpl"] = Except.ok t)
    (hx : lib.execute t GoAny.nil = (out, none)) :
    renderEmbeddedAssets lib assets p w =
      Res.ok ()
        { w with stdout := w.stdout ++ out,
                 calls := w.calls ++
                   [Call.parseFS assets [str "base.tmpl", str "pages/" ++ p ++ str ".tmpl"],
                    Call.execute GoAny.nil] } := by
  simp only [renderEmbeddedAssets, bind_run, templateParseFS, sprintf_page, h, templateExecute,
    hx, pure_run]
  simp


theorem lookup_eq_none (assets : FS) (name : Bytes) :
    assets.lookup name = none ↔ ∀ f ∈ assets, f.name ≠ name := by
  simp [FS.lookup, List.find?_eq_none]

theorem lookup_some (assets : FS) (name : Bytes) (f : EmbedFile)
    (h : assets.lookup name = some f) : f ∈ assets ∧ f.name = name := by
  unfold FS.lookup at h
  have h1 := List.find?_some h
  have h2 := List.mem_of_find?_eq_some h
  exact ⟨h2, by simpa using h1⟩

theorem open_found (assets : FS) (name : Bytes) (f : EmbedFile) (w : World)
    (h : assets.lookup name = some f) :
    assets.Open name w =
      Res.ok (some w.heap.length, none)
        { w with heap := w.heap ++ [Handle.file ⟨f.name, f.data, 0⟩] } := by
  simp only [FS.Open, h]

theorem open_missing (assets : FS) (name : Bytes) (w : World)
    (h : assets.lookup name = none) (hd : assets.isDir name = false) :
    assets.Open name w = Res.ok (none, some (GoError.notExist "open" name)) w := by
  simp [FS.Open, h, hd]

theorem open_directory (assets : FS) (name : Bytes) (w : World)
    (h : assets.lookup name = none) (hd : assets.isDir name = true) :
    assets.Open name w =
      Res.ok (some w.heap.length, none) { w with heap := w.heap ++ [Handle.dir name] } := by
  simp [FS.Open, h, hd]

theorem isDir_eq_false (assets : FS) (name : Bytes) (hn : name ≠ str ".") :
    assets.isDir name = false ↔ ∀ f ∈ assets, ¬ (name ++ str "/") <+: f.name := by
  simp [FS.isDir, hn]

theorem page_path_ne_dot (p : Bytes) : str "pages/" ++ p ++ str ".tmpl" ≠ str "." := by
  intro h
  have h0 : (str "pages/" ++ p ++ str ".tmpl").head? = some 112 := rfl
  rw [h] at h0
  revert h0
  decide

theorem set_same {α : Type} (l : List α) (i : Nat) (a : α) (h : l[i]? = some a) :
    l.set i a = l := by
  induction l generalizing i with
  | nil => rfl
  | cons x xs ih =>
    cases i with
    | zero => simp at h; simp [h]
    | succ j => simp at h; simp [ih j h]

theorem take_drop_length {α : Type} (n : Nat) (d : List α) :
    d.take n ++ d.drop (d.take n).length = d := by
  induction d generalizing n with
  | nil => simp
  | cons x xs ih =>
    cases n with
    | zero => simp
    | succ m => simpa using ih m

theorem readAllLoop_spec (p : Nat) :
    ∀ (fuel : Nat) (acc : Bytes) (w : World) (o : OpenFile),
      w.heap[p]? = some (Handle.file o) → o.offset ≤ o.data.length →
      o.data.length - o.offset < fuel →
      readAllLoop (some p) fuel acc w =
        Res.ok (acc ++ o.data.drop o.offset, none)
          ⟨w.stdout, w.stderr,
            w.heap.set p (Handle.file ⟨o.name, o.data, o.data.length⟩), w.calls⟩ := by
  intro fuel
  induction fuel with
  | zero => intro acc w o _ _ h; omega
  | succ n ih =>
    intro acc w o hget hle hfuel
    by_cases hend : o.data.length ≤ o.offset
    · have hoff : o.data.length = o.offset := by omega
      have hself : w.heap.set p (Handle.file ⟨o.name, o.data, o.data.length⟩) = w.heap := by
        rw [hoff]
        exact set_same _ _ _ hget
      simp only [readAllLoop, bind_run, File.Read, hget, hend, if_true, pure_run, hself]
      simp [List.drop_of_length_le hend]
    · have hlt : o.offset < o.data.length := by omega
      obtain ⟨c, hc⟩ : ∃ c, c = (o.data.drop o.offset).take 512 := ⟨_, rfl⟩
      have hchunk : 0 < c.length := by
        rw [hc, List.length_take, List.length_drop]; omega
      have hchunk_le : c.length ≤ o.data.length - o.offset := by
        rw [hc, List.length_take, List.length_drop]; omega
      have hp : p < w.heap.length := by
        rcases List.getElem?_eq_some_iff.mp hget with ⟨hp, _⟩
        exact hp
      have hget2 : (w.heap.set p (Handle.file ⟨o.name, o.data, o.offset + c.length⟩))[p]? =
          some (Handle.file ⟨o.name, o.data, o.offset + c.length⟩) := by
        simp [List.getElem?_set, hp]
      have step := ih (acc ++ c)
        ⟨w.stdout, w.stderr,
          w.heap.set p (Handle.file ⟨o.name, o.data, o.offset + c.length⟩), w.calls⟩
        ⟨o.name, o.data, o.offset + c.length⟩
        hget2 (by simp only; omega) (by simp only; omega)
      simp only [readAllLoop, bind_run, File.Read, hget, hend, if_false, ← hc]
      rw [step]
      simp only [List.set_set, List.append_assoc]
      have hsplit : c ++ o.data.drop (o.offset + c.length) = o.data.drop o.offset := by
        have hdd : o.data.drop (o.offset + c.length) = (o.data.drop o.offset).drop c.length := by
          rw [List.drop_drop, Nat.add_comm]
        rw [hdd, hc]
        exact take_drop_length _ _
      rw [hsplit]


theorem ioReadAll_fresh (w : World) (name data : Bytes) :
    ioReadAll (some w.heap.length)
        { w with heap := w.heap ++ [Handle.file ⟨name, data, 0⟩] } =
      Res.ok (data, none)
        { w with heap := w.heap ++ [Handle.file ⟨name, data, data.length⟩] } := by
  have hget : (w.heap ++ [Handle.file ⟨name, data, 0⟩])[w.heap.length]? =
      some (Handle.file ⟨name, data, 0⟩) :=
    List.getElem?_concat_length _ _
  have h := readAllLoop_spec w.heap.length (data.length + 1) []
    ⟨w.stdout, w.stderr, w.heap ++ [Handle.file ⟨name, data, 0⟩], w.calls⟩ ⟨name, data, 0⟩
    hget
    (Nat.zero_le _) (by simp)
  simp only [ioReadAll, remaining, hget, Nat.sub_zero]
  rw [h]
  simp

theorem stat_fresh (w : World) (name data : Bytes) (k : Nat) :
    File.Stat (some w.heap.length)
        { w with heap := w.heap ++ [Handle.file ⟨name, data, k⟩] } =
      Res.ok (some ⟨baseName name, data.length⟩, none)
        { w with heap := w.heap ++ [Handle.file ⟨name, data, k⟩] } := by
  have hget : (w.heap ++ [Handle.file ⟨name, data, k⟩])[w.heap.length]? =
      some (Handle.file ⟨name, data, k⟩) :=
    List.getElem?_concat_length _ _
  simp only [File.Stat, hget]

theorem fileContents_found (assets : FS) (p : Bytes) (f : EmbedFile) (w : World)
    (h : assets.lookup (str "pages/" ++ p ++ str ".tmpl") = some f) :
    fileContents assets p w =
      Res.ok (some w.heap.length, none)
        { w with heap := w.heap ++ [Handle.file ⟨f.name, f.data, 0⟩] } := by
  rw [fileContents, sprintf_page]
  exact open_found assets _ f w h

theorem fileContents_missing (assets : FS) (p : Bytes) (w : World)
    (h : assets.lookup (str "pages/" ++ p ++ str ".tmpl") = none)
    (hd : assets.isDir (str "pages/" ++ p ++ str ".tmpl") = false) :
    fileContents assets p w =
      Res.ok (none, some (GoError.notExist "open" (str "pages/" ++ p ++ str ".tmpl"))) w := by
  rw [fileContents, sprintf_page]
  exact open_missing assets _ w h hd

theorem fileContents_directory (assets : FS) (p : Bytes) (w : World)
    (h : assets.lookup (str "pages/" ++ p ++ str ".tmpl") = none)
    (hd : assets.isDir (str "pages/" ++ p ++ str ".tmpl") = true) :
    fileContents assets p w =
      Res.ok (some w.heap.length, none)
        { w with heap := w.heap ++ [Handle.dir (str "pages/" ++ p ++ str ".tmpl")] } := by
  rw [fileContents, sprintf_page]
  exact open_directory assets _ w h hd

theorem mainAccess_found (assets : FS) (f : EmbedFile) (w : World)
    (h : assets.lookup (str "pages/about.tmpl") = some f) :
    mainAccess assets w =
      Res.ok ()
        { w with
          stdout := w.stdout ++ f.data ++ str "\n" ++ str "0001-01-01 00:00:00 +0000 UTC"
            ++ str "\n" ++ hexBytes (md5Sum f.data),
          heap := w.heap ++ [Handle.file ⟨f.name, f.data, f.data.length⟩] } := by
  have h1 := fileContents_found assets (str "about") f w h
  have h2 := ioReadAll_fresh w f.name f.data
  have h3 := stat_fresh ⟨w.stdout ++ (f.data ++ str "\n"), w.stderr, w.heap, w.calls⟩
    f.name f.data f.data.length
  have ht : Time.zero.String = str "0001-01-01 00:00:00 +0000 UTC" := by decide
  simp only [mainAccess, bind_run, h1, h2, fmtPrintln, fmtPrint, fmtPrintf, h3, modTimeOf,
    FileInfo.ModTime, ht]
  simp only [List.append_assoc]
  rfl

theorem mainAccess_missing (assets : FS) (w : World)
    (h : assets.lookup (str "pages/about.tmpl") = none)
    (hd : assets.isDir (str "pages/about.tmpl") = false) :
    mainAccess assets w = Res.halt Halt.nilDeref w := by
  have h1 := fileContents_missing assets (str "about") w h hd
  simp only [mainAccess, bind_run, h1, ioReadAll, remaining, readAllLoop, File.Read]


theorem home_path : str "pages/" ++ str "home" ++ str ".tmpl" = str "pages/home.tmpl" := by
  decide

theorem about_path : str "pages/" ++ str "about" ++ str ".tmpl" = str "pages/about.tmpl" := by
  decide

theorem ioReadAll_dir_fresh (w : World) (name : Bytes) :
    ioReadAll (some w.heap.length) { w with heap := w.heap ++ [Handle.dir name] } =
      Res.ok ([], some (GoError.isDirectory "read" (name ++ str "/")))
        { w with heap := w.heap ++ [Handle.dir name] } := by
  have hget : (w.heap ++ [Handle.dir name])[w.heap.length]? = some (Handle.dir name) :=
    List.getElem?_concat_length _ _
  simp only [ioReadAll, remaining, hget, readAllLoop, bind_run, File.Read, pure_run]
  simp

theorem stat_dir_fresh (w : World) (name : Bytes) :
    File.Stat (some w.heap.length) { w with heap := w.heap ++ [Handle.dir name] } =
      Res.ok (some ⟨baseName name, 0⟩, none) { w with heap := w.heap ++ [Handle.dir name] } := by
  have hget : (w.heap ++ [Handle.dir name])[w.heap.length]? = some (Handle.dir name) :=
    List.getElem?_concat_length _ _
  simp only [File.Stat, hget]

theorem mainAccess_directory (assets : FS) (w : World)
    (h : assets.lookup (str "pages/about.tmpl") = none)
    (hd : assets.isDir (str "pages/about.tmpl") = true) :
    mainAccess assets w =
      Res.ok ()
        { w with
          stdout := w.stdout ++ str "\n" ++ str "0001-01-01 00:00:00 +0000 UTC" ++ str "\n"
            ++ hexBytes (md5Sum []),
          heap := w.heap ++ [Handle.dir (str "pages/about.tmpl")] } := by
  have h1 := fileContents_directory assets (str "about") w h hd
  rw [about_path] at h1
  have h2 := ioReadAll_dir_fresh w (str "pages/about.tmpl")
  have h3 := stat_dir_fresh
    ⟨w.stdout ++ ([] ++ str "\n"), w.stderr, w.heap, w.calls⟩ (str "pages/about.tmpl")
  have ht : Time.zero.String = str "0001-01-01 00:00:00 +0000 UTC" := by decide
  simp only [mainAccess, bind_run, h1, h2, fmtPrintln, fmtPrint, fmtPrintf, h3, modTimeOf,
    FileInfo.ModTime, ht]
  simp only [List.append_assoc, List.nil_append]
  rfl

theorem mainAccess_dirAssets :
    mainAccess dirAssets World.init =
      Res.ok ()
        ⟨str "\n0001-01-01 00:00:00 +0000 UTC\nd41d8cd98f00b204e9800998ecf8427e", [],
          [Handle.dir (str "pages/about.tmpl")], []⟩ := by
  decide!

theorem fileContents_dirAssets :
    fileContents dirAssets (str "about") World.init =
      Res.ok (some 0, none) ⟨[], [], [Handle.dir (str "pages/about.tmpl")], []⟩ := by
  decide

theorem md5Sum_empty : hexBytes (md5Sum []) = str "d41d8cd98f00b204e9800998ecf8427e" := by
  decide!

theorem md5Sum_abc : hexBytes (md5Sum (str "abc")) = str "900150983cd24fb0d6963f7d28e17f72" := by
  decide!

theorem md5Sum_two_blocks :
    hexBytes (md5Sum (List.replicate 70 97)) = str "0f5c6c4e740bfcc08c3c26ccb2673d46" := by
  decide!

theorem time_unix_epoch :
    Time.String ⟨62135596800, 0⟩ = str "1970-01-01 00:00:00 +0000 UTC" := by
  decide!

theorem time_leap_day :
    Time.String ⟨63844765261, 120000⟩ = str "2024-02-29 01:01:01.00012 +0000 UTC" := by
  decide!

theorem main_ok {T : Type} (lib : TemplateLib T) (assets : FS) (w : World)
    (th ta : T) (oh oa : Bytes) (f : EmbedFile)
    (hph : lib.parseFS assets [str "base.tmpl", str "pages/home.tmpl"] = Except.ok th)
    (hxh : lib.execute th GoAny.nil = (oh, none))
    (hpa : lib.parseFS assets [str "base.tmpl", str "pages/about.tmpl"] = Except.ok ta)
    (hxa : lib.execute ta GoAny.nil = (oa, none))
    (hf : assets.lookup (str "pages/about.tmpl") = some f) :
    main lib assets w =
      Res.ok ()
        { stdout := w.stdout ++ oh ++ str "\n\n" ++ oa ++ str "\n\n" ++ oh ++ str "\n\n" ++ oa
            ++ str "\n\n" ++ f.data ++ str "\n" ++ str "0001-01-01 00:00:00 +0000 UTC"
            ++ str "\n" ++ hexBytes (md5Sum f.data),
          stderr := w.stderr,
          heap := w.heap ++ [Handle.file ⟨f.name, f.data, f.data.length⟩],
          calls := w.calls ++
            [Call.parseFS assets [str "base.tmpl", str "pages/home.tmpl"],
             Call.execute GoAny.nil,
             Call.parseFS assets [str "base.tmpl", str "pages/about.tmpl"],
             Call.execute GoAny.nil,
             Call.parseFS assets [str "base.tmpl", str "pages/home.tmpl"],
             Call.execute GoAny.nil,
             Call.parseFS assets [str "base.tmpl", str "pages/about.tmpl"],
             Call.execute GoAny.nil] } := by
  have rh := fun w => render_ok lib assets (str "home") w th oh (by rw [home_path]; exact hph) hxh
  have ra := fun w => render_ok lib assets (str "about") w ta oa (by rw [about_path]; exact hpa) hxa
  have ma := fun w => mainAccess_found assets f w hf
  simp only [main, mainRender, bind_run, renderFiles_eq_embedded, rh, ra, ma, fmtPrint,
    home_path, about_path]
  simp only [List.append_assoc, List.cons_append, List.nil_append]

theorem render_calls {T : Type} (lib : TemplateLib T) (assets : FS) (p : Bytes) (w : World) :
    ∃ rest, (renderEmbeddedAssets lib assets p w).world.calls =
        w.calls ++
          Call.parseFS assets [str "base.tmpl", str "pages/" ++ p ++ str ".tmpl"] :: rest ∧
      ∀ c ∈ rest, c = Call.execute GoAny.nil := by
  cases h : lib.parseFS assets [str "base.tmpl", str "pages/" ++ p ++ str ".tmpl"] with
  | error e =>
    refine ⟨[], ?_, by simp⟩
    rw [render_parse_error lib assets p w e h]
    rfl
  | ok t =>
    cases hx : lib.execute t GoAny.nil with
    | mk out err =>
      refine ⟨[Call.execute GoAny.nil], ?_, by simp⟩
      cases err with
      | none => rw [render_ok lib assets p w t out h hx]; simp [Res.world]
      | some e => rw [render_exec_error lib assets p w t out e h hx]; simp [Res.world]

/-! ## The claims -/

/-- Claim C1. For every page name `p`, in every world, `renderEmbeddedAssets` and
`renderFiles` make exactly one parse call to the template library: on the asset set, with
the two paths `base.tmpl` and `pages/p.tmpl` in this order. It is the first library call of
the render, and any call after it is the execution on nil data, not another parse. -/
theorem C1_render_parses_base_then_page {T : Type} (lib : TemplateLib T) (assets : FS)
    (p : Bytes) (w : World) :
    (∃ rest, (renderEmbeddedAssets lib assets p w).world.calls =
        w.calls ++
          Call.parseFS assets [str "base.tmpl", str "pages/" ++ p ++ str ".tmpl"] :: rest ∧
      ∀ c ∈ rest, c = Call.execute GoAny.nil) ∧
    (∃ rest, (renderFiles lib assets p w).world.calls =
        w.calls ++
          Call.parseFS assets [str "base.tmpl", str "pages/" ++ p ++ str ".tmpl"] :: rest ∧
      ∀ c ∈ rest, c = Call.execute GoAny.nil) :=
  ⟨render_calls lib assets p w, by rw [renderFiles_eq_embedded]; exact render_calls lib assets p w⟩

/-- Claim C2. If the embedded set has no entry called `pages/p.tmpl` (no file of that
name, and no file under it, which would make it a directory), then `fileContents p` returns
the nil handle together with the not-exist error for that path and leaves the world as it
was. Whenever `fileContents p` returns a handle, the path is in the set, as a file or as a
directory; and for every path in the set it does return a handle and no error. -/
theorem C2_fileContents_not_found (assets : FS) (p : Bytes) (w : World) :
    ((∀ f ∈ assets, f.name ≠ str "pages/" ++ p ++ str ".tmpl") →
      (∀ f ∈ assets, ¬ (str "pages/" ++ p ++ str ".tmpl" ++ str "/") <+: f.name) →
      fileContents assets p w =
        Res.ok (none, some (GoError.notExist "open" (str "pages/" ++ p ++ str ".tmpl"))) w) ∧
    (∀ (h : Nat) (e : Option GoError) (w1 : World),
      fileContents assets p w = Res.ok (some h, e) w1 →
        (∃ f ∈ assets, f.name = str "pages/" ++ p ++ str ".tmpl") ∨
        (∃ f ∈ assets, (str "pages/" ++ p ++ str ".tmpl" ++ str "/") <+: f.name)) ∧
    ((∃ f ∈ assets, f.name = str "pages/" ++ p ++ str ".tmpl") ∨
        (∃ f ∈ assets, (str "pages/" ++ p ++ str ".tmpl" ++ str "/") <+: f.name) →
      ∃ (h : Nat) (w1 : World), fileContents assets p w = Res.ok (some h, none) w1) := by
  have hdir := isDir_eq_false assets (str "pages/" ++ p ++ str ".tmpl") (page_path_ne_dot p)
  refine ⟨?_, ?_, ?_⟩
  · intro hno hnd
    exact fileContents_missing assets p w ((lookup_eq_none assets _).mpr hno) (hdir.mpr hnd)
  · intro h e w1 hres
    cases hl : assets.lookup (str "pages/" ++ p ++ str ".tmpl") with
    | some f => exact Or.inl ⟨f, lookup_some assets _ f hl⟩
    | none =>
      cases hd : assets.isDir (str "pages/" ++ p ++ str ".tmpl") with
      | false =>
        rw [fileContents_missing assets p w hl hd] at hres
        simp at hres
      | true =>
        right
        by_contra hcon
        have hall : ∀ f ∈ assets,
            ¬ (str "pages/" ++ p ++ str ".tmpl" ++ str "/") <+: f.name := by
          intro f hf hp
          exact hcon ⟨f, hf, hp⟩
        rw [hdir.mpr hall] at hd
        exact Bool.noConfusion hd
  · intro hin
    cases hl : assets.lookup (str "pages/" ++ p ++ str ".tmpl") with
    | some f => exact ⟨_, _, fileContents_found assets p f w hl⟩
    | none =>
      cases hd : assets.isDir (str "pages/" ++ p ++ str ".tmpl") with
      | true => exact ⟨_, _, fileContents_directory assets p w hl hd⟩
      | false =>
        exfalso
        rcases hin with ⟨f, hf, hname⟩ | ⟨f, hf, hp⟩
        · exact (lookup_eq_none assets _).mp hl f hf hname
        · exact hdir.mp hd f hf hp

/-- Witness for C2: the page `missing` has no entry in the demo set, and `fileContents`
fails; the page `about` is a file of the demo set and a directory of `dirAssets`, and
`fileContents` returns a handle for both. -/
theorem C2_fileContents_not_found_witness :
    ((∀ f ∈ demoAssets, f.name ≠ str "pages/" ++ str "missing" ++ str ".tmpl") ∧
      (∀ f ∈ demoAssets,
        ¬ (str "pages/" ++ str "missing" ++ str ".tmpl" ++ str "/") <+: f.name) ∧
      fileContents demoAssets (str "missing") World.init =
        Res.ok (none, some (GoError.notExist "open" (str "pages/missing.tmpl"))) World.init) ∧
    (∃ (h : Nat) (w1 : World),
      fileContents demoAssets (str "about") World.init = Res.ok (some h, none) w1) ∧
    (∃ (h : Nat) (w1 : World),
      fileContents dirAssets (str "about") World.init = Res.ok (some h, none) w1) :=
  ⟨⟨by decide, by decide,
     (C2_fileContents_not_found demoAssets (str "missing") World.init).1 (by decide)
       (by decide)⟩,
   (C2_fileContents_not_found demoAssets (str "about") World.init).2.2
     (Or.inl ⟨⟨str "pages/about.tmpl", str "about"⟩, by decide, by decide⟩),
   (C2_fileContents_not_found dirAssets (str "about") World.init).2.2
     (Or.inr ⟨⟨str "pages/about.tmpl/inner.txt", str "x"⟩, by decide, by decide⟩)⟩

/-- Claim C9. `renderFiles` and `renderEmbeddedAssets` are the same operation: for every
library instance, asset set, page name and world the two calls end alike (same return or
same halt, same output, same log, same library calls); the parse call names the embedded
asset set and the two template paths, and every execution is on nil data. -/
theorem C9_renderFiles_same_as_renderEmbeddedAssets {T : Type} (lib : TemplateLib T)
    (assets : FS) (p : Bytes) (w : World) :
    renderFiles lib assets p w = renderEmbeddedAssets lib assets p w ∧
    ∃ rest, (renderFiles lib assets p w).world.calls =
        w.calls ++
          Call.parseFS assets [str "base.tmpl", str "pages/" ++ p ++ str ".tmpl"] :: rest ∧
      ∀ c ∈ rest, c = Call.execute GoAny.nil :=
  ⟨rfl, by rw [renderFiles_eq_embedded]; exact render_calls lib assets p w⟩

/-- Claim C3, as stated, fails on the demo set: each page is rendered twice, not once (four
executions), and a newline follows the raw content and the timestamp. The output differs
from the claimed sequence, with or without those newlines. -/
theorem C3_counterexample_pages_rendered_twice :
    (main plainLib demoAssets World.init).world.stdout =
      str ("<p>hi</p>\n\n<p>hi</p>\n\n<p>hi</p>\n\n<p>hi</p>\n\nabout\n" ++
        "0001-01-01 00:00:00 +0000 UTC\n46b3931b9959c927df4fc65fdee94b07") ∧
    (main plainLib demoAssets World.init).world.stdout ≠
      str "<p>hi</p>" ++ str "\n\n" ++ str "<p>hi</p>" ++ str "\n\n" ++ str "about"
        ++ str "0001-01-01 00:00:00 +0000 UTC" ++ str "46b3931b9959c927df4fc65fdee94b07" ∧
    (main plainLib demoAssets World.init).world.stdout ≠
      str "<p>hi</p>" ++ str "\n\n" ++ str "<p>hi</p>" ++ str "\n\n" ++ str "about\n"
        ++ str "0001-01-01 00:00:00 +0000 UTC\n" ++ str "46b3931b9959c927df4fc65fdee94b07" ∧
    ((main plainLib demoAssets World.init).world.calls.filter
      (fun c => c == Call.execute GoAny.nil)).length = 4 := by
  decide!

/-- Claim C3, amended. When both pages parse and execute without error and
`pages/about.tmpl` is in the embedded set, `main` returns and has written, in order: the
rendering of home, a blank-line separator, the rendering of about, a blank-line separator
(the two `renderFiles` calls), then these four parts once more (the two
`renderEmbeddedAssets` calls), then the raw content of the about asset and a newline, the
zero timestamp and a newline, and the hexadecimal MD5 digest of the content. Each page is
parsed and executed twice, and nothing else is written. -/
theorem C3_process_output_renders_each_page_twice {T : Type} (lib : TemplateLib T)
    (assets : FS) (w : World) (th ta : T) (oh oa : Bytes) (f : EmbedFile)
    (hph : lib.parseFS assets [str "base.tmpl", str "pages/home.tmpl"] = Except.ok th)
    (hxh : lib.execute th GoAny.nil = (oh, none))
    (hpa : lib.parseFS assets [str "base.tmpl", str "pages/about.tmpl"] = Except.ok ta)
    (hxa : lib.execute ta GoAny.nil = (oa, none))
    (hf : assets.lookup (str "pages/about.tmpl") = some f) :
    main lib assets w =
      Res.ok ()
        { stdout := w.stdout ++ oh ++ str "\n\n" ++ oa ++ str "\n\n" ++ oh ++ str "\n\n" ++ oa
            ++ str "\n\n" ++ f.data ++ str "\n" ++ str "0001-01-01 00:00:00 +0000 UTC"
            ++ str "\n" ++ hexBytes (md5Sum f.data),
          stderr := w.stderr,
          heap := w.heap ++ [Handle.file ⟨f.name, f.data, f.data.length⟩],
          calls := w.calls ++
            [Call.parseFS assets [str "base.tmpl", str "pages/home.tmpl"],
             Call.execute GoAny.nil,
             Call.parseFS assets [str "base.tmpl", str "pages/about.tmpl"],
             Call.execute GoAny.nil,
             Call.parseFS assets [str "base.tmpl", str "pages/home.tmpl"],
             Call.execute GoAny.nil,
             Call.parseFS assets [str "base.tmpl", str "pages/about.tmpl"],
             Call.execute GoAny.nil] } :=
  main_ok lib assets w th ta oh oa f hph hxh hpa hxa hf

/-- Witness for C3: the demo set under `plainLib`, from the initial world. -/
theorem C3_process_output_witness :
    main plainLib demoAssets World.init =
      Res.ok ()
        { stdout := World.init.stdout ++ str "<p>hi</p>" ++ str "\n\n" ++ str "<p>hi</p>"
            ++ str "\n\n" ++ str "<p>hi</p>" ++ str "\n\n" ++ str "<p>hi</p>"
            ++ str "\n\n" ++ str "about" ++ str "\n" ++ str "0001-01-01 00:00:00 +0000 UTC"
            ++ str "\n" ++ hexBytes (md5Sum (str "about")),
          stderr := [],
          heap := [Handle.file ⟨str "pages/about.tmpl", str "about", 5⟩],
          calls :=
            [Call.parseFS demoAssets [str "base.tmpl", str "pages/home.tmpl"],
             Call.execute GoAny.nil,
             Call.parseFS demoAssets [str "base.tmpl", str "pages/about.tmpl"],
             Call.execute GoAny.nil,
             Call.parseFS demoAssets [str "base.tmpl", str "pages/home.tmpl"],
             Call.execute GoAny.nil,
             Call.parseFS demoAssets [str "base.tmpl", str "pages/about.tmpl"],
             Call.execute GoAny.nil] } :=
  C3_process_output_renders_each_page_twice plainLib demoAssets World.init
    [str "<p>hi</p>", str "home"] [str "<p>hi</p>", str "about"] (str "<p>hi</p>")
    (str "<p>hi</p>") ⟨str "pages/about.tmpl", str "about"⟩ (by decide) (by decide) (by decide)
    (by decide) (by decide)

/-- Claim C4, as stated, fails: on a page whose file is not in the set, parsing fails and
both render functions halt the process with exit status 1; nothing is returned to the
caller. -/
theorem C4_counterexample_render_exits :
    plainLib.parseFS demoAssets [str "base.tmpl", str "pages/missing.tmpl"] =
      Except.error (GoError.template
        (str "template: pattern matches no files: \x60pages/missing.tmpl\x60")) ∧
    renderEmbeddedAssets plainLib demoAssets (str "missing") World.init =
      Res.halt (Halt.exit 1)
        ⟨[], [GoError.template
            (str "template: pattern matches no files: \x60pages/missing.tmpl\x60")], [],
          [Call.parseFS demoAssets [str "base.tmpl", str "pages/missing.tmpl"]]⟩ ∧
    renderFiles plainLib demoAssets (str "missing") World.init =
      Res.halt (Halt.exit 1)
        ⟨[], [GoError.template
            (str "template: pattern matches no files: \x60pages/missing.tmpl\x60")], [],
          [Call.parseFS demoAssets [str "base.tmpl", str "pages/missing.tmpl"]]⟩ := by
  decide

/-- Claim C4, amended. For every page name, when parsing or execution fails,
`renderEmbeddedAssets` and `renderFiles` log the error and terminate the process with exit
status 1 (`log.Fatal`); they return, without a value, when both steps succeed. -/
theorem C4_render_failure_exits_process {T : Type} (lib : TemplateLib T) (assets : FS)
    (p : Bytes) (w : World) :
    (∀ e, lib.parseFS assets [str "base.tmpl", str "pages/" ++ p ++ str ".tmpl"] =
        Except.error e →
      ∃ w1, renderEmbeddedAssets lib assets p w = Res.halt (Halt.exit 1) w1 ∧
        renderFiles lib assets p w = Res.halt (Halt.exit 1) w1 ∧
        w1.stderr = w.stderr ++ [e]) ∧
    (∀ t e, lib.parseFS assets [str "base.tmpl", str "pages/" ++ p ++ str ".tmpl"] =
        Except.ok t → (lib.execute t GoAny.nil).2 = some e →
      ∃ w1, renderEmbeddedAssets lib assets p w = Res.halt (Halt.exit 1) w1 ∧
        renderFiles lib assets p w = Res.halt (Halt.exit 1) w1 ∧
        w1.stderr = w.stderr ++ [e]) ∧
    (∀ t, lib.parseFS assets [str "base.tmpl", str "pages/" ++ p ++ str ".tmpl"] =
        Except.ok t → (lib.execute t GoAny.nil).2 = none →
      ∃ w1, renderEmbeddedAssets lib assets p w = Res.ok () w1 ∧
        renderFiles lib assets p w = Res.ok () w1 ∧
        w1.stderr = w.stderr) := by
  refine ⟨?_, ?_, ?_⟩
  · intro e h
    exact ⟨_, render_parse_error lib assets p w e h,
      by rw [renderFiles_eq_embedded]; exact render_parse_error lib assets p w e h, rfl⟩
  · intro t e h hx
    have hx2 : lib.execute t GoAny.nil = ((lib.execute t GoAny.nil).1, some e) := by
      rw [← hx]
    exact ⟨_, render_exec_error lib assets p w t _ e h hx2,
      by rw [renderFiles_eq_embedded]; exact render_exec_error lib assets p w t _ e h hx2, rfl⟩
  · intro t h hx
    have hx2 : lib.execute t GoAny.nil = ((lib.execute t GoAny.nil).1, none) := by
      rw [← hx]
    exact ⟨_, render_ok lib assets p w t _ h hx2,
      by rw [renderFiles_eq_embedded]; exact render_ok lib assets p w t _ h hx2, rfl⟩

/-- Witness for C4: a parse failure (page `missing`) and an execution failure (closed
writer) both end in exit status 1. -/
theorem C4_render_failure_witness :
    (∃ w1, renderEmbeddedAssets plainLib demoAssets (str "missing") World.init =
        Res.halt (Halt.exit 1) w1 ∧
      renderFiles plainLib demoAssets (str "missing") World.init = Res.halt (Halt.exit 1) w1 ∧
      w1.stderr = World.init.stderr ++ [GoError.template
        (str "template: pattern matches no files: \x60pages/missing.tmpl\x60")]) ∧
    (∃ w1, renderEmbeddedAssets closedSinkLib demoAssets (str "home") World.init =
        Res.halt (Halt.exit 1) w1 ∧
      renderFiles closedSinkLib demoAssets (str "home") World.init = Res.halt (Halt.exit 1) w1 ∧
      w1.stderr = World.init.stderr ++
        [GoError.template (str "write /dev/stdout: file already closed")]) :=
  ⟨(C4_render_failure_exits_process plainLib demoAssets (str "missing") World.init).1 _
      (by decide),
   (C4_render_failure_exits_process closedSinkLib demoAssets (str "home") World.init).2.1
      [str "<p>hi</p>", str "home"] _ (by decide) (by decide)⟩

/-- Claim C5. For every page name and every later step `k`: when parsing fails, the render
call halts the process with exit status 1, having written nothing to standard output and
executed no template (the only library call is the parse), and `k` does not run; when
execution fails, the call halts likewise after what the execution wrote. In `main` the
first failing render ends the process: no later render, separator or direct-access print
follows. -/
theorem C5_render_failure_is_fatal {T : Type} (lib : TemplateLib T) (assets : FS)
    (p : Bytes) (w : World) (k : Unit → Go Unit) :
    (∀ e, lib.parseFS assets [str "base.tmpl", str "pages/" ++ p ++ str ".tmpl"] =
        Except.error e →
      renderEmbeddedAssets lib assets p w =
        Res.halt (Halt.exit 1)
          { w with stderr := w.stderr ++ [e],
                   calls := w.calls ++
                     [Call.parseFS assets [str "base.tmpl", str "pages/" ++ p ++ str ".tmpl"]] } ∧
      (renderEmbeddedAssets lib assets p >>= k) w = renderEmbeddedAssets lib assets p w) ∧
    (∀ t out e, lib.parseFS assets [str "base.tmpl", str "pages/" ++ p ++ str ".tmpl"] =
        Except.ok t → lib.execute t GoAny.nil = (out, some e) →
      renderEmbeddedAssets lib assets p w =
        Res.halt (Halt.exit 1)
          { w with stdout := w.stdout ++ out,
                   stderr := w.stderr ++ [e],
                   calls := w.calls ++
                     [Call.parseFS assets [str "base.tmpl", str "pages/" ++ p ++ str ".tmpl"],
                      Call.execute GoAny.nil] } ∧
      (renderEmbeddedAssets lib assets p >>= k) w = renderEmbeddedAssets lib assets p w) ∧
    (∀ e, lib.parseFS assets [str "base.tmpl", str "pages/home.tmpl"] = Except.error e →
      main lib assets w =
        Res.halt (Halt.exit 1)
          { w with stderr := w.stderr ++ [e],
                   calls := w.calls ++
                     [Call.parseFS assets [str "base.tmpl", str "pages/home.tmpl"]] }) ∧
    (∀ th oh e, lib.parseFS assets [str "base.tmpl", str "pages/home.tmpl"] = Except.ok th →
      lib.execute th GoAny.nil = (oh, some e) →
      main lib assets w =
        Res.halt (Halt.exit 1)
          { w with stdout := w.stdout ++ oh,
                   stderr := w.stderr ++ [e],
                   calls := w.calls ++
                     [Call.parseFS assets [str "base.tmpl", str "pages/home.tmpl"],
                      Call.execute GoAny.nil] }) ∧
    (∀ th oh e, lib.parseFS assets [str "base.tmpl", str "pages/home.tmpl"] = Except.ok th →
      lib.execute th GoAny.nil = (oh, none) →
      lib.parseFS assets [str "base.tmpl", str "pages/about.tmpl"] = Except.error e →
      main lib assets w =
        Res.halt (Halt.exit 1)
          { w with stdout := w.stdout ++ oh ++ str "\n\n",
                   stderr := w.stderr ++ [e],
                   calls := w.calls ++
                     [Call.parseFS assets [str "base.tmpl", str "pages/home.tmpl"],
                      Call.execute GoAny.nil,
                      Call.parseFS assets [str "base.tmpl", str "pages/about.tmpl"]] }) ∧
    (∀ th oh ta oa e,
      lib.parseFS assets [str "base.tmpl", str "pages/home.tmpl"] = Except.ok th →
      lib.execute th GoAny.nil = (oh, none) →
      lib.parseFS assets [str "base.tmpl", str "pages/about.tmpl"] = Except.ok ta →
      lib.execute ta GoAny.nil = (oa, some e) →
      main lib assets w =
        Res.halt (Halt.exit 1)
          { w with stdout := w.stdout ++ oh ++ str "\n\n" ++ oa,
                   stderr := w.stderr ++ [e],
                   calls := w.calls ++
                     [Call.parseFS assets [str "base.tmpl", str "pages/home.tmpl"],
                      Call.execute GoAny.nil,
                      Call.parseFS assets [str "base.tmpl", str "pages/about.tmpl"],
                      Call.execute GoAny.nil] }) := by
  refine ⟨?_, ?_, ?_, ?_, ?_, ?_⟩
  · intro e h
    have r := render_parse_error lib assets p w e h
    exact ⟨r, by rw [bind_run, r]⟩
  · intro t out e h hx
    have r := render_exec_error lib assets p w t out e h hx
    exact ⟨r, by rw [bind_run, r]⟩
  · intro e h
    have r := fun w =>
      render_parse_error lib assets (str "home") w e (by rw [home_path]; exact h)
    simp only [main, mainRender, bind_run, renderFiles_eq_embedded, r, home_path]
  · intro th oh e h hx
    have r := fun w =>
      render_exec_error lib assets (str "home") w th oh e (by rw [home_path]; exact h) hx
    simp only [main, mainRender, bind_run, renderFiles_eq_embedded, r, home_path]
  · intro th oh e h hx ha
    have r := fun w => render_ok lib assets (str "home") w th oh (by rw [home_path]; exact h) hx
    have ra := fun w =>
      render_parse_error lib assets (str "about") w e (by rw [about_path]; exact ha)
    simp only [main, mainRender, bind_run, renderFiles_eq_embedded, r, ra, fmtPrint, home_path,
      about_path]
    simp only [List.append_assoc, List.cons_append, List.nil_append]
  · intro th oh ta oa e h hx ha hxa
    have r := fun w => render_ok lib assets (str "home") w th oh (by rw [home_path]; exact h) hx
    have ra := fun w =>
      render_exec_error lib assets (str "about") w ta oa e (by rw [about_path]; exact ha) hxa
    simp only [main, mainRender, bind_run, renderFiles_eq_embedded, r, ra, fmtPrint, home_path,
      about_path]
    simp only [List.append_assoc, List.cons_append, List.nil_append]

/-- Witness for C5: without the about page, `main` stops at the second render, after the
home page and one separator; with a closed writer it stops at the first. -/
theorem C5_render_failure_witness :
    main plainLib noAboutAssets World.init =
      Res.halt (Halt.exit 1)
        { World.init with
          stdout := World.init.stdout ++ str "<p>hi</p>" ++ str "\n\n",
          stderr := World.init.stderr ++ [GoError.template
            (str "template: pattern matches no files: \x60pages/about.tmpl\x60")],
          calls := World.init.calls ++
            [Call.parseFS noAboutAssets [str "base.tmpl", str "pages/home.tmpl"],
             Call.execute GoAny.nil,
             Call.parseFS noAboutAssets [str "base.tmpl", str "pages/about.tmpl"]] } ∧
    main closedSinkLib demoAssets World.init =
      Res.halt (Halt.exit 1)
        { World.init with
          stdout := World.init.stdout ++ [],
          stderr := World.init.stderr ++
            [GoError.template (str "write /dev/stdout: file already closed")],
          calls := World.init.calls ++
            [Call.parseFS demoAssets [str "base.tmpl", str "pages/home.tmpl"],
             Call.execute GoAny.nil] } :=
  ⟨(C5_render_failure_is_fatal plainLib noAboutAssets (str "home") World.init
      (fun _ => pure ())).2.2.2.2.1 [str "<p>hi</p>", str "home"] (str "<p>hi</p>") _
      (by decide) (by decide) (by decide),
   (C5_render_failure_is_fatal closedSinkLib demoAssets (str "home") World.init
      (fun _ => pure ())).2.2.2.1 [str "<p>hi</p>", str "home"] [] _ (by decide) (by decide)⟩

/-- Claim C6. For every file of the embedded set, whatever its path and content: opening
it gives a handle whose `Stat` succeeds, the modification time of the file info is the zero
time, printed as `0001-01-01 00:00:00 +0000 UTC`; `Stat` leaves the world as it was, a
second `Stat` returns the identical value, and so does a `Stat` after the handle has been
read to the end. -/
theorem C6_stat_modtime_is_zero_time (assets : FS) (name : Bytes) (f : EmbedFile) (w : World)
    (h : assets.lookup name = some f) :
    ∃ (p : Nat) (w1 w2 : World) (fi : FileInfo),
      assets.Open name w = Res.ok (some p, none) w1 ∧
      File.Stat (some p) w1 = Res.ok (some fi, none) w1 ∧
      (File.Stat (some p) >>= fun _ => File.Stat (some p)) w1 = Res.ok (some fi, none) w1 ∧
      ioReadAll (some p) w1 = Res.ok (f.data, none) w2 ∧
      File.Stat (some p) w2 = Res.ok (some fi, none) w2 ∧
      modTimeOf (some fi) w2 = Res.ok Time.zero w2 ∧
      fi.ModTime = Time.zero ∧
      fi.ModTime.String = str "0001-01-01 00:00:00 +0000 UTC" := by
  have hs := stat_fresh w f.name f.data 0
  have ht : Time.zero.String = str "0001-01-01 00:00:00 +0000 UTC" := by decide
  refine ⟨w.heap.length, _, _, ⟨baseName f.name, f.data.length⟩, open_found assets name f w h,
    hs, ?_, ioReadAll_fresh w f.name f.data, stat_fresh w f.name f.data f.data.length, rfl,
    rfl, ht⟩
  rw [bind_run, hs]
  exact hs

/-- Witness for C6: the home page of the demo set. -/
theorem C6_stat_modtime_witness :
    ∃ (p : Nat) (w1 w2 : World) (fi : FileInfo),
      demoAssets.Open (str "pages/home.tmpl") World.init = Res.ok (some p, none) w1 ∧
      File.Stat (some p) w1 = Res.ok (some fi, none) w1 ∧
      (File.Stat (some p) >>= fun _ => File.Stat (some p)) w1 = Res.ok (some fi, none) w1 ∧
      ioReadAll (some p) w1 = Res.ok (str "home", none) w2 ∧
      File.Stat (some p) w2 = Res.ok (some fi, none) w2 ∧
      modTimeOf (some fi) w2 = Res.ok Time.zero w2 ∧
      fi.ModTime = Time.zero ∧
      fi.ModTime.String = str "0001-01-01 00:00:00 +0000 UTC" :=
  C6_stat_modtime_is_zero_time demoAssets (str "pages/home.tmpl")
    ⟨str "pages/home.tmpl", str "home"⟩ World.init (by decide)

/-- Claim C7. On the asset layout of the spec, `fileContents("about")` returns a handle
without error, and reading that handle to the end returns, without error, all bytes of
`pages/about.tmpl`; they begin with the title literal. -/
theorem C7_about_content_begins_with_title (base home aboutRest : Bytes) (w : World) :
    ∃ (p : Nat) (w1 w2 : World) (b : Bytes),
      fileContents (staticAssets base home aboutRest) (str "about") w =
        Res.ok (some p, none) w1 ∧
      ioReadAll (some p) w1 = Res.ok (b, none) w2 ∧
      (staticAssets base home aboutRest).lookup (str "pages/about.tmpl") =
        some ⟨str "pages/about.tmpl", b⟩ ∧
      b = aboutTitle ++ aboutRest ∧
      aboutTitle <+: b := by
  have hl : (staticAssets base home aboutRest).lookup (str "pages/about.tmpl") =
      some ⟨str "pages/about.tmpl", aboutTitle ++ aboutRest⟩ := by
    simp only [staticAssets, FS.lookup]
    rfl
  exact ⟨w.heap.length, _, _, aboutTitle ++ aboutRest,
    fileContents_found _ (str "about") _ w hl, ioReadAll_fresh w _ _, hl, rfl,
    List.prefix_append _ _⟩

/-- Claim C8. Open-read-digest is deterministic and depends only on the asset's bytes: for
any two runs (any worlds, the same or different asset sets and page names) on assets with
the same bytes, both runs return those bytes, the same MD5 digest and the same hexadecimal
text. For the about page, as `main` reads it: two runs of the direct-access part that start
with the same output end with the same output. -/
theorem C8_digest_depends_only_on_bytes (assets1 assets2 : FS) (p1 p2 : Bytes)
    (f1 f2 : EmbedFile) (w1 w2 : World)
    (h1 : assets1.lookup (str "pages/" ++ p1 ++ str ".tmpl") = some f1)
    (h2 : assets2.lookup (str "pages/" ++ p2 ++ str ".tmpl") = some f2)
    (hb : f1.data = f2.data) :
    (∃ v1 v2 : World,
      openReadDigest assets1 p1 w1 =
        Res.ok (f1.data, md5Sum f1.data, hexBytes (md5Sum f1.data)) v1 ∧
      openReadDigest assets2 p2 w2 =
        Res.ok (f1.data, md5Sum f1.data, hexBytes (md5Sum f1.data)) v2) ∧
    (p1 = str "about" → p2 = str "about" → w1.stdout = w2.stdout →
      (mainAccess assets1 w1).world.stdout = (mainAccess assets2 w2).world.stdout) := by
  have run : ∀ (assets : FS) (p : Bytes) (f : EmbedFile) (w : World),
      assets.lookup (str "pages/" ++ p ++ str ".tmpl") = some f →
      openReadDigest assets p w =
        Res.ok (f.data, md5Sum f.data, hexBytes (md5Sum f.data))
          { w with heap := w.heap ++ [Handle.file ⟨f.name, f.data, f.data.length⟩] } := by
    intro assets p f w h
    simp only [openReadDigest, bind_run, fileContents_found assets p f w h,
      ioReadAll_fresh w f.name f.data, pure_run]
    rfl
  refine ⟨⟨_,
    { w2 with heap := w2.heap ++ [Handle.file ⟨f2.name, f2.data, f2.data.length⟩] },
    run assets1 p1 f1 w1 h1, ?_⟩, ?_⟩
  · rw [hb]
    exact run assets2 p2 f2 w2 h2
  · intro e1 e2 hw
    subst e1 e2
    rw [about_path] at h1 h2
    rw [mainAccess_found assets1 f1 w1 h1, mainAccess_found assets2 f2 w2 h2]
    simp only [Res.world, hb, hw]

/-- Witness for C8: the about page of the demo set, read in two different worlds. -/
theorem C8_digest_witness :
    (∃ v1 v2 : World,
      openReadDigest demoAssets (str "about") World.init =
        Res.ok (str "about", md5Sum (str "about"), hexBytes (md5Sum (str "about"))) v1 ∧
      openReadDigest demoAssets (str "about")
          ⟨[], [], [Handle.file ⟨str "base.tmpl", [], 0⟩], []⟩ =
        Res.ok (str "about", md5Sum (str "about"), hexBytes (md5Sum (str "about"))) v2) ∧
    (str "about" = str "about" → str "about" = str "about" →
      World.init.stdout =
        (⟨[], [], [Handle.file ⟨str "base.tmpl", [], 0⟩], []⟩ : World).stdout →
      (mainAccess demoAssets World.init).world.stdout =
        (mainAccess demoAssets
          ⟨[], [], [Handle.file ⟨str "base.tmpl", [], 0⟩], []⟩).world.stdout) :=
  C8_digest_depends_only_on_bytes demoAssets demoAssets (str "about") (str "about")
    ⟨str "pages/about.tmpl", str "about"⟩ ⟨str "pages/about.tmpl", str "about"⟩ World.init
    ⟨[], [], [Handle.file ⟨str "base.tmpl", [], 0⟩], []⟩ (by decide) (by decide) rfl

/-- Claim C10. In the direct-access part of `main` the three errors are dropped. If
`pages/about.tmpl` is a file of the embedded set, none of them occurs: `fileContents`
returns a handle and no error, `ReadAll` on it returns the content and no error, `Stat`
returns a file info and no error, `ModTime` is called on that file info, and the part
returns. If the set has no entry of that name (no such file, and the name is no directory of
the set), `fileContents` returns the nil handle with the not-exist error, the nil handle is
passed on to `ReadAll`, and the process stops there with a nil dereference, nothing
printed. -/
theorem C10_direct_access_errors (assets : FS) (w : World) :
    (∀ f, assets.lookup (str "pages/about.tmpl") = some f →
      ∃ (p : Nat) (w1 w2 w3 : World) (fi : FileInfo),
        fileContents assets (str "about") w = Res.ok (some p, none) w1 ∧
        ioReadAll (some p) w1 = Res.ok (f.data, none) w2 ∧
        File.Stat (some p) w2 = Res.ok (some fi, none) w2 ∧
        modTimeOf (some fi) w2 = Res.ok Time.zero w2 ∧
        mainAccess assets w = Res.ok () w3) ∧
    (assets.lookup (str "pages/about.tmpl") = none →
      assets.isDir (str "pages/about.tmpl") = false →
      fileContents assets (str "about") w =
        Res.ok (none, some (GoError.notExist "open" (str "pages/about.tmpl"))) w ∧
      ioReadAll none w = Res.halt Halt.nilDeref w ∧
      mainAccess assets w = Res.halt Halt.nilDeref w) := by
  constructor
  · intro f h
    exact ⟨w.heap.length, _, _, _, ⟨baseName f.name, f.data.length⟩,
      fileContents_found assets (str "about") f w h, ioReadAll_fresh w f.name f.data,
      stat_fresh w f.name f.data f.data.length, rfl, mainAccess_found assets f w h⟩
  · intro h hd
    exact ⟨fileContents_missing assets (str "about") w h hd, rfl,
      mainAccess_missing assets w h hd⟩

/-- Witness for C10: the demo set holds the about page, the set without it has no entry of
that name. -/
theorem C10_direct_access_witness :
    (∃ (p : Nat) (w1 w2 w3 : World) (fi : FileInfo),
        fileContents demoAssets (str "about") World.init = Res.ok (some p, none) w1 ∧
        ioReadAll (some p) w1 = Res.ok (str "about", none) w2 ∧
        File.Stat (some p) w2 = Res.ok (some fi, none) w2 ∧
        modTimeOf (some fi) w2 = Res.ok Time.zero w2 ∧
        mainAccess demoAssets World.init = Res.ok () w3) ∧
    (fileContents noAboutAssets (str "about") World.init =
        Res.ok (none, some (GoError.notExist "open" (str "pages/about.tmpl"))) World.init ∧
      ioReadAll none World.init = Res.halt Halt.nilDeref World.init ∧
      mainAccess noAboutAssets World.init = Res.halt Halt.nilDeref World.init) :=
  ⟨(C10_direct_access_errors demoAssets World.init).1 ⟨str "pages/about.tmpl", str "about"⟩
      (by decide),
   (C10_direct_access_errors noAboutAssets World.init).2 (by decide) (by decide)⟩

end EmbeddedAssets
